import Mathlib

/-!
Verification development for the Conversation Client in `src/run-test.py`.

The program is a thin chat client: `chat_with_model` serializes a
conversation into an OpenAI-style payload, posts it, and folds every HTTP
outcome into an appended conversation turn; `submit_message` guards against
empty input; `clear_chat` resets the conversation; `check_server_status`
maps a GET outcome to a status line.

The network is external, so the outcome of the HTTP call (a response with a
status code, body text and parsed JSON; a connection error; a timeout; or
any other fault) is an explicit input of the embedded functions.  Exceptions
raised and caught in the Python source become `Except` values here; a
function that is total in Lean models code that never propagates a fault.
-/

/-- One chat exchange: (user text, assistant text).  Mirrors the
`Tuple(str, str)` entries of the Gradio history list. -/
abbrev Turn := String × String

/-- JSON values, used for the parsed response body (`response.json()`). -/
inductive JsonValue where
  | null
  | bool (b : Bool)
  | num (q : ℚ)
  | str (s : String)
  | arr (items : List JsonValue)
  | obj (fields : List (String × JsonValue))

/-- One entry of the `messages` list of the request payload:
a role-tagged content string. -/
structure ApiMessage where
  role : String
  content : String
deriving DecidableEq

/-- The request payload built by `chat_with_model` (lines 37-43 of the
source): model name, messages, temperature, max_tokens, stream=False. -/
structure Payload where
  model : String
  messages : List ApiMessage
  temperature : ℚ
  max_tokens : ℤ
  stream : Bool

/-- `MODEL_URL` constant of the source. -/
def MODEL_URL : String := "http://localhost:8000/v1/chat/completions"

/-- `MODEL_NAME` constant of the source. -/
def MODEL_NAME : String := "openai/gpt-oss-20b"

/-- The outcome of the `requests.post` call in `chat_with_model`: a response
(status code, raw body text, and the result of `response.json()`, which is a
parse-error description when the body is not valid JSON), or one of the
exceptions the source catches. -/
inductive PostOutcome where
  | response (status : ℕ) (text : String) (jsonBody : Except String JsonValue)
  | connectionError
  | timeout
  | otherFault (description : String)

/-- The outcome of the `requests.get` call in `check_server_status`: a
response, a connection error, or any other fault (including a timeout,
which that function has no dedicated handler for). -/
inductive GetOutcome where
  | response (status : ℕ) (text : String)
  | connectionError
  | otherFault (description : String)

/-- Python `str.strip()`: remove whitespace from both ends.  Defined by
structural recursion on the character list so that it evaluates. -/
def pyStrip (s : String) : String :=
  ⟨((s.data.dropWhile Char.isWhitespace).reverse.dropWhile Char.isWhitespace).reverse⟩

/-- Python subscripting `value[key]` on a parsed JSON value: a key lookup on
an object, a `KeyError` when the key is absent, a `TypeError` otherwise. -/
def getKey (j : JsonValue) (k : String) : Except String JsonValue :=
  match j with
  | .obj fields =>
      match List.lookup k fields with
      | some v => Except.ok v
      | none => Except.error ("KeyError: " ++ k)
  | _ => Except.error "TypeError: value is not subscriptable by string key"

/-- Python subscripting `value[i]` on a parsed JSON value: an index lookup
on a list, an `IndexError` when out of range, a `TypeError` otherwise. -/
def getIndex (j : JsonValue) (i : ℕ) : Except String JsonValue :=
  match j with
  | .arr items =>
      match items.get? i with
      | some v => Except.ok v
      | none => Except.error "IndexError: list index out of range"
  | _ => Except.error "TypeError: value is not a list"

/-- Line 55 of the source: the extraction
`result["choices"][0]["message"]["content"]`.  Any failing step raises,
which the generic handler catches; the content is a string per the response
shape of the API (spec section 6). -/
def extractContent (j : JsonValue) : Except String String := do
  let choices ← getKey j "choices"
  let first ← getIndex choices 0
  let msg ← getKey first "message"
  let content ← getKey msg "content"
  match content with
  | .str s => Except.ok s
  | _ => Except.error "TypeError: content is not a string"

/-- Lines 54-55 of the source: `response.json()` followed by the extraction
of the first choice.  A JSON parse error or an extraction error is an
exception caught by the generic handler. -/
def responseAssistant (jsonBody : Except String JsonValue) : Except String String :=
  match jsonBody with
  | Except.error e => Except.error e
  | Except.ok j => extractContent j

/-- The fixed connection-error assistant text (line 66 of the source). -/
def connectionErrorMsg : String :=
  "❌ **Connection Error**: Could not connect to the model server. Make sure it\x27s running on http://localhost:8000"

/-- The fixed timeout-error assistant text (line 70 of the source). -/
def timeoutErrorMsg : String :=
  "❌ **Timeout Error**: The model took too long to respond"

/-- The assistant text for an unexpected fault (line 74 of the source),
embedding the fault description `str(e)`. -/
def unexpectedErrorMsg (e : String) : String :=
  "❌ **Unexpected Error**: " ++ e

/-- The assistant text for a non-200 HTTP status (lines 61-62 of the
source), embedding the status code and the raw body text. -/
def httpErrorMsg (status : ℕ) (text : String) : String :=
  "❌ **Error**: " ++ ("Error " ++ toString status ++ ": " ++ text)

/-- Lines 22-34 of the source: build the `messages` list by successive
appends — the system message when the trimmed system prompt is non-empty,
then a (user, assistant) pair per history turn, then the new user message. -/
def buildMessages (message : String) (history : List Turn) (system_prompt : String) :
    List ApiMessage :=
  let ms : List ApiMessage := []
  let ms := if pyStrip system_prompt = "" then ms else ms ++ [⟨"system", system_prompt⟩]
  let ms := history.foldl (fun acc t => acc ++ [⟨"user", t.1⟩, ⟨"assistant", t.2⟩]) ms
  ms ++ [⟨"user", message⟩]

/-- Lines 37-43 of the source: the full request payload. -/
def buildPayload (message : String) (history : List Turn) (system_prompt : String)
    (temperature : ℚ) (max_tokens : ℤ) : Payload :=
  ⟨MODEL_NAME, buildMessages message history system_prompt, temperature, max_tokens, false⟩

/-- `chat_with_model` (lines 16-76 of the source), with the outcome of the
POST as an explicit input.  Every branch returns the empty display text and
the history with exactly one turn appended. -/
def chat_with_model (message : String) (history : List Turn) (system_prompt : String)
    (temperature : ℚ) (max_tokens : ℤ) (outcome : PostOutcome) : String × List Turn :=
  let _payload := buildPayload message history system_prompt temperature max_tokens
  match outcome with
  | .response status text jsonBody =>
      if status = 200 then
        match responseAssistant jsonBody with
        | Except.ok assistant_response =>
            ("", history ++ [(message, assistant_response)])
        | Except.error e =>
            ("", history ++ [(message, unexpectedErrorMsg e)])
      else
        ("", history ++ [(message, httpErrorMsg status text)])
  | .connectionError => ("", history ++ [(message, connectionErrorMsg)])
  | .timeout => ("", history ++ [(message, timeoutErrorMsg)])
  | .otherFault e => ("", history ++ [(message, unexpectedErrorMsg e)])

/-- `submit_message` (lines 153-156 of the source): the send_message entry
point of the spec.  The empty-input guard runs before `chat_with_model`,
hence before any network call: the result then does not depend on the
outcome. -/
def submit_message (message : String) (history : List Turn) (sys_prompt : String)
    (temp : ℚ) (max_tok : ℤ) (outcome : PostOutcome) : String × List Turn :=
  if pyStrip message = "" then ("", history)
  else chat_with_model message history sys_prompt temp max_tok outcome

/-- `clear_chat` (lines 78-80 of the source): returns the empty history. -/
def clear_chat : List Turn := []

/-- `check_server_status` (lines 82-93 of the source), with the outcome of
the GET as an explicit input. -/
def check_server_status (outcome : GetOutcome) : String :=
  match outcome with
  | .response status _text =>
      if status = 200 then "✅ **Server Status**: Online and ready"
      else "⚠️ **Server Status**: Server responded with status " ++ toString status
  | .connectionError =>
      "❌ **Server Status**: Offline - Make sure to start your model server first"
  | .otherFault e =>
      "⚠️ **Server Status**: Unknown error - " ++ e

/-- The messages sequence stated declaratively, with the system-message
condition amended to match the code: a single system message first iff the
system prompt is non-empty AFTER stripping whitespace (the source tests
`system_prompt.strip()`, so a whitespace-only prompt sends no system
message, contrary to a literal reading of spec section 4.1 step 1), then
the per-turn user/assistant pairs in order, then the new user message. -/
def specMessagesSequence (message : String) (history : List Turn) (system_prompt : String) :
    List ApiMessage :=
  (if pyStrip system_prompt ≠ "" then [⟨"system", system_prompt⟩] else [])
    ++ history.flatMap (fun t => [⟨"user", t.1⟩, ⟨"assistant", t.2⟩])
    ++ [⟨"user", message⟩]

/-- `s` contains `sub` as a contiguous substring. -/
def containsSub (s sub : String) : Prop :=
  ∃ pre post : String, s = pre ++ sub ++ post

/-- Helper: every branch of `chat_with_model` returns the empty display text
and the history with exactly one turn appended, whose user side is the
message. -/
theorem chat_with_model_appends (message : String) (history : List Turn)
    (sys_prompt : String) (temp : ℚ) (max_tok : ℤ) (outcome : PostOutcome) :
    ∃ a : String, chat_with_model message history sys_prompt temp max_tok outcome
      = ("", history ++ [(message, a)]) := by
  cases outcome with
  | response status text jsonBody =>
      by_cases hs : status = 200
      · subst hs
        cases hres : responseAssistant jsonBody with
        | ok a => exact ⟨a, by simp [chat_with_model, hres]⟩
        | error e => exact ⟨unexpectedErrorMsg e, by simp [chat_with_model, hres]⟩
      · exact ⟨httpErrorMsg status text, by simp [chat_with_model, hs]⟩
  | connectionError => exact ⟨connectionErrorMsg, rfl⟩
  | timeout => exact ⟨timeoutErrorMsg, rfl⟩
  | otherFault e => exact ⟨unexpectedErrorMsg e, rfl⟩

/-- C1: for every message that is non-empty after trimming, and every
conversation, system prompt, temperature, max_tokens and HTTP outcome,
`submit_message` returns the input conversation with exactly one Turn
appended, whose first element is the message; the existing turns are the
unchanged prefix, so they are neither reordered nor mutated. -/
theorem submit_message_appends_one_turn (message : String) (h : pyStrip message ≠ "")
    (history : List Turn) (sys_prompt : String) (temp : ℚ) (max_tok : ℤ)
    (outcome : PostOutcome) :
    ∃ a : String,
      (submit_message message history sys_prompt temp max_tok outcome).2
          = history ++ [(message, a)]
        ∧ (submit_message message history sys_prompt temp max_tok outcome).2.length
          = history.length + 1 := by
  obtain ⟨a, ha⟩ := chat_with_model_appends message history sys_prompt temp max_tok outcome
  exact ⟨a, by simp [submit_message, h, ha], by simp [submit_message, h, ha]⟩

/-- Witness for C1 at a concrete input. -/
theorem submit_message_appends_one_turn_witness :
    ∃ a : String,
      (submit_message "hi" [] "" 0 0 PostOutcome.connectionError).2 = [] ++ [("hi", a)]
        ∧ (submit_message "hi" [] "" 0 0 PostOutcome.connectionError).2.length
          = List.length ([] : List Turn) + 1 :=
  submit_message_appends_one_turn "hi" (by decide) [] "" 0 0 PostOutcome.connectionError

/-- C2: for a message that is empty or all whitespace, `submit_message`
returns the conversation unchanged with an empty display text, and the
result does not depend on the HTTP outcome — the guard runs before any
network call, so no request influences the result. -/
theorem submit_message_empty_noop (message : String) (h : pyStrip message = "")
    (history : List Turn) (sys_prompt : String) (temp : ℚ) (max_tok : ℤ)
    (outcome : PostOutcome) :
    submit_message message history sys_prompt temp max_tok outcome = ("", history) := by
  simp [submit_message, h]

/-- Witness for C2 at a concrete whitespace-only input. -/
theorem submit_message_empty_noop_witness :
    submit_message "  " [("a", "b")] "sys" 0 5 PostOutcome.timeout = ("", [("a", "b")]) :=
  submit_message_empty_noop "  " (by decide) [("a", "b")] "sys" 0 5 PostOutcome.timeout

/-- Helper: a left fold that appends a block per element equals the initial
list followed by the flattened blocks. -/
theorem foldl_append_eq_flatMap (f : Turn → List ApiMessage) (init : List ApiMessage)
    (l : List Turn) :
    l.foldl (fun acc t => acc ++ f t) init = init ++ l.flatMap f := by
  induction l generalizing init with
  | nil => simp
  | cons t ts ih => simp [ih]

/-- C3 refutation: the claim says the system message is present iff the
system prompt is non-empty, but for the non-empty whitespace-only prompt
consisting of one space the payload sent for message hi and an empty
history contains no system message at all — it is exactly the single user
message. -/
theorem system_prompt_whitespace_counterexample :
    (" " : String) ≠ ""
    ∧ (buildPayload "hi" [] " " 0 0).messages
        = [{ role := "user", content := "hi" }] := by
  exact ⟨by decide, by decide⟩

/-- C3 (amended): the messages list of the payload sent to the server is
exactly the optional system message — present iff the system prompt is
non-empty after stripping whitespace — then a user/assistant pair per
existing turn in original order, then the new user message. -/
theorem payload_messages_match_spec (message : String) (history : List Turn)
    (system_prompt : String) (temp : ℚ) (max_tok : ℤ) :
    (buildPayload message history system_prompt temp max_tok).messages
      = specMessagesSequence message history system_prompt := by
  show buildMessages message history system_prompt
      = specMessagesSequence message history system_prompt
  simp only [buildMessages, specMessagesSequence]
  rw [foldl_append_eq_flatMap]
  by_cases h : pyStrip system_prompt = "" <;> simp [h]

/-- The mocked 200-response body of spec section 8: one choice whose message
content is the string hello. -/
def helloBody : JsonValue :=
  JsonValue.obj
    [("choices", JsonValue.arr
      [JsonValue.obj [("message", JsonValue.obj [("content", JsonValue.str "hello")])]])]

/-- C4: on HTTP 200 with a body of the expected shape, the first choice's
message content is appended as the assistant side of the new Turn. -/
theorem submit_message_success_appends (message : String) (h : pyStrip message ≠ "")
    (history : List Turn) (sys_prompt : String) (temp : ℚ) (max_tok : ℤ)
    (text : String) (jsonBody : Except String JsonValue) (a : String)
    (ha : responseAssistant jsonBody = Except.ok a) :
    submit_message message history sys_prompt temp max_tok
        (PostOutcome.response 200 text jsonBody)
      = ("", history ++ [(message, a)]) := by
  simp [submit_message, h, chat_with_model, ha]

/-- Witness for C4: the mocked 200 endpoint with the hello body yields the
conversation with the single turn (hi, hello) and empty display text. -/
theorem submit_message_success_appends_witness :
    submit_message "hi" [] "" (7/10) 512 (PostOutcome.response 200 "" (Except.ok helloBody))
      = ("", [("hi", "hello")]) :=
  submit_message_success_appends "hi" (by decide) [] "" (7/10) 512 ""
    (Except.ok helloBody) "hello" (by rfl)

/-- C5: on any non-200 status, the appended Turn's assistant text is the
error string, which contains both the decimal status code and the raw
response body as substrings; the call still returns normally. -/
theorem submit_message_http_error (message : String) (h : pyStrip message ≠ "")
    (history : List Turn) (sys_prompt : String) (temp : ℚ) (max_tok : ℤ)
    (status : ℕ) (hs : status ≠ 200) (text : String) (jsonBody : Except String JsonValue) :
    submit_message message history sys_prompt temp max_tok
        (PostOutcome.response status text jsonBody)
      = ("", history ++ [(message, httpErrorMsg status text)])
    ∧ containsSub (httpErrorMsg status text) (toString status)
    ∧ containsSub (httpErrorMsg status text) text := by
  refine ⟨by simp [submit_message, h, chat_with_model, hs], ?_, ?_⟩
  · exact ⟨"❌ **Error**: " ++ "Error ", ": " ++ text, by
      simp only [httpErrorMsg, String.append_assoc]⟩
  · exact ⟨"❌ **Error**: " ++ ("Error " ++ toString status ++ ": "), "", by
      simp [httpErrorMsg, String.append_assoc]⟩

/-- Witness for C5: the mocked 500 response with body server error. -/
theorem submit_message_http_error_witness :
    submit_message "hi" [] "" 0 0
        (PostOutcome.response 500 "server error" (Except.error "not json"))
      = ("", [("hi", httpErrorMsg 500 "server error")])
    ∧ containsSub (httpErrorMsg 500 "server error") "500"
    ∧ containsSub (httpErrorMsg 500 "server error") "server error" :=
  submit_message_http_error "hi" (by decide) [] "" 0 0 500 (by decide) "server error"
    (Except.error "not json")

/-- C6: for every input and every outcome of the HTTP call, `submit_message`
returns (it is a total function, modelling that no exception propagates),
the display text is always empty, and the conversation is either unchanged
(empty-input guard) or the input conversation with one Turn appended. -/
theorem submit_message_total_empty_display (message : String) (history : List Turn)
    (sys_prompt : String) (temp : ℚ) (max_tok : ℤ) (outcome : PostOutcome) :
    (submit_message message history sys_prompt temp max_tok outcome).1 = ""
    ∧ ((submit_message message history sys_prompt temp max_tok outcome).2 = history
        ∨ ∃ a : String, (submit_message message history sys_prompt temp max_tok outcome).2
            = history ++ [(message, a)]) := by
  by_cases h : pyStrip message = ""
  · exact ⟨by simp [submit_message, h], Or.inl (by simp [submit_message, h])⟩
  · obtain ⟨a, ha⟩ := chat_with_model_appends message history sys_prompt temp max_tok outcome
    exact ⟨by simp [submit_message, h, ha], Or.inr ⟨a, by simp [submit_message, h, ha]⟩⟩

/-- C7: each network fault class maps to its own appended Turn — the fixed
connection-error text, the fixed timeout-error text, or a text embedding the
fault's description — with the user message as the Turn's first element; the
connection and timeout texts are distinct. -/
theorem chat_with_model_fault_turns (message : String) (history : List Turn)
    (sys_prompt : String) (temp : ℚ) (max_tok : ℤ) (d : String) :
    chat_with_model message history sys_prompt temp max_tok PostOutcome.connectionError
        = ("", history ++ [(message, connectionErrorMsg)])
    ∧ chat_with_model message history sys_prompt temp max_tok PostOutcome.timeout
        = ("", history ++ [(message, timeoutErrorMsg)])
    ∧ chat_with_model message history sys_prompt temp max_tok (PostOutcome.otherFault d)
        = ("", history ++ [(message, unexpectedErrorMsg d)])
    ∧ connectionErrorMsg ≠ timeoutErrorMsg
    ∧ containsSub (unexpectedErrorMsg d) d := by
  refine ⟨rfl, rfl, rfl, by decide, ⟨"❌ **Unexpected Error**: ", "", by
    simp [unexpectedErrorMsg]⟩⟩

/-- C8: `check_server_status` is total (never raises) and maps HTTP 200 to
the online text, any other status to the degraded text embedding that
status code, a connection failure to the offline text, and any other fault
to the unknown-status text embedding the fault's description. -/
theorem check_server_status_cases (s : ℕ) (t d : String) :
    check_server_status (GetOutcome.response 200 t)
        = "✅ **Server Status**: Online and ready"
    ∧ (s ≠ 200 → check_server_status (GetOutcome.response s t)
        = "⚠️ **Server Status**: Server responded with status " ++ toString s)
    ∧ check_server_status GetOutcome.connectionError
        = "❌ **Server Status**: Offline - Make sure to start your model server first"
    ∧ check_server_status (GetOutcome.otherFault d)
        = "⚠️ **Server Status**: Unknown error - " ++ d := by
  exact ⟨rfl, fun hs => by simp [check_server_status, hs], rfl, rfl⟩

/-- Witness for C8: a concrete non-200 status yields the degraded text. -/
theorem check_server_status_cases_witness :
    check_server_status (GetOutcome.response 503 "x")
      = "⚠️ **Server Status**: Server responded with status " ++ toString 503 :=
  (check_server_status_cases 503 "x" "boom").2.1 (by decide)

/-- C9: `clear_chat` returns the empty conversation unconditionally — it
takes no input, so the result is the same whatever the prior conversation
was, and applying it again still gives the empty conversation. -/
theorem clear_chat_empty :
    clear_chat = ([] : List Turn) ∧ clear_chat.length = 0 := ⟨rfl, rfl⟩

/-- C10: on HTTP 200 with a body that is not valid JSON or lacks the
expected shape, the parse or extraction fault is caught and a Turn with the
unexpected-error text embedding the fault's description is appended; no
exception escapes (the function still returns normally). -/
theorem submit_message_malformed_body (message : String) (h : pyStrip message ≠ "")
    (history : List Turn) (sys_prompt : String) (temp : ℚ) (max_tok : ℤ)
    (text d : String) (jsonBody : Except String JsonValue)
    (hbad : responseAssistant jsonBody = Except.error d) :
    submit_message message history sys_prompt temp max_tok
        (PostOutcome.response 200 text jsonBody)
      = ("", history ++ [(message, unexpectedErrorMsg d)]) := by
  simp [submit_message, h, chat_with_model, hbad]

/-- Witness for C10: a 200 response whose JSON object has no choices key. -/
theorem submit_message_malformed_body_witness :
    submit_message "hi" [] "" 0 0
        (PostOutcome.response 200 "" (Except.ok (JsonValue.obj [])))
      = ("", [("hi", unexpectedErrorMsg "KeyError: choices")]) :=
  submit_message_malformed_body "hi" (by decide) [] "" 0 0 "" "KeyError: choices"
    (Except.ok (JsonValue.obj [])) rfl
